import Mathlib

/-!
Verification of the ampelmann check-execution and classification pipeline.

The Python sources (`ampelmann/llm.py`, `ampelmann/scheduler.py`,
`ampelmann/runner.py`, `ampelmann/notify.py`, `ampelmann/retry.py`,
`ampelmann/models.py`) are shallowly embedded below.  Strings are embedded as
Lean `String`/`List Char`; Python string operations (`strip`, `lower`,
`split`, `startswith`, `in`, slicing) are reimplemented with Python's
semantics, including the truthiness of `None` and of the empty string.
Network and subprocess effects are modelled by explicit outcome oracles passed
as arguments, so that call counts, retries and sleeps become observable data.
-/

namespace Ampelmann

/-- Python's default whitespace set for `str.strip()` / `str.split()`
(ASCII portion; all inputs considered here are ASCII). -/
def pyWS (c : Char) : Bool :=
  c = ' ' || c = '\t' || c = '\n' || c = '\r' || c = '\x0b' || c = '\x0c'

/-- Leading-whitespace removal, first half of Python `str.strip()`. -/
def stripLeading (l : List Char) : List Char := l.dropWhile pyWS

/-- Trailing-whitespace removal, second half of Python `str.strip()`. -/
def stripTrailing (l : List Char) : List Char := (l.reverse.dropWhile pyWS).reverse

/-- Python `str.strip()` on a character list. -/
def pyStripL (l : List Char) : List Char := stripTrailing (stripLeading l)

/-- Python `str.strip()`. -/
def pyStrip (s : String) : String := ⟨pyStripL s.data⟩

/-- Python `str.lower()` (ASCII). -/
def pyLowerL (l : List Char) : List Char := l.map Char.toLower

/-- Python `str.split("\n")`: split on newline, keeping empty pieces
(`"".split("\n") == [""]`). -/
def splitNl : List Char → List (List Char)
  | [] => [[]]
  | c :: cs =>
    if c = '\n' then [] :: splitNl cs
    else
      match splitNl cs with
      | [] => [[c]]
      | h :: t => (c :: h) :: t

/-- First whitespace-separated token, i.e. `s.split()[0]` when it exists and
`""` when the (already stripped) string is empty. -/
def firstWord (l : List Char) : List Char :=
  (l.dropWhile pyWS).takeWhile (fun c => !pyWS c)

/-- Python `needle in hay` for strings: `needle` occurs contiguously in `hay`. -/
def strContains (hay needle : List Char) : Bool :=
  match hay with
  | [] => needle.isEmpty
  | _ :: t => needle.isPrefixOf hay || strContains t needle

/-- Status enum `CheckStatus` from `models.py` (values `ok` / `alert` / `error`). -/
inductive CheckStatus where
  | ok
  | alert
  | error
deriving DecidableEq, Repr

/-- Priority enum `NotifyPriority` from `models.py`. -/
inductive NotifyPriority where
  | min
  | low
  | default
  | high
  | urgent
deriving DecidableEq, Repr

/-- Python truthiness of an `str | None` value: `None` and `""` are falsy. -/
def optStrTruthy : Option String → Bool
  | some s => !(s == "")
  | none => false

/-- Python `a or b` on `str | None` values. -/
def pyOrStr (a b : Option String) : Option String :=
  if optStrTruthy a then a else b

/-- Python `a or d` where `a : str | None` and `d` is a (truthy) string. -/
def pyOrStrD (a : Option String) (d : String) : String :=
  if optStrTruthy a then a.getD "" else d

/-!  ## Status parsing (`llm.py`, `_parse_llm_status`)  -/

/-- The explicit-marker loop of `_parse_llm_status`: walk the lines of the
stripped response; for each line, strip and lowercase it; if it starts with
`status:`, strip the remainder and test its leading keyword.  A `status:` line
with an unrecognized value falls through to the next line.  `rs` is the whole
stripped response, returned as the alert message where the source does. -/
def statusMarkerScan (rs : List Char) : List (List Char) → Option (CheckStatus × Option (List Char))
  | [] => none
  | line :: rest =>
    let ll := pyLowerL (pyStripL line)
    if "status:".data.isPrefixOf ll then
      let sp := pyStripL (ll.drop 7)
      if "ok".data.isPrefixOf sp then some (.ok, none)
      else if "warning".data.isPrefixOf sp || "alert".data.isPrefixOf sp then
        some (.alert, some rs)
      else if "critical".data.isPrefixOf sp || "error".data.isPrefixOf sp then
        some (.alert, some rs)
      else statusMarkerScan rs rest
    else statusMarkerScan rs rest

/-- The "all clear" phrases of `_parse_llm_status`. -/
def okPhrases : List (List Char) :=
  ["no issues".data, "no problems".data, "all good".data,
   "all systems normal".data, "everything is fine".data]

/-- The fallback heuristics of `_parse_llm_status`, applied to the stripped
response `rs` when no explicit `status:` marker matched. -/
def statusFallback (rs : List Char) : CheckStatus × Option (List Char) :=
  let rl := pyLowerL rs
  let fw := firstWord rl
  if (fw == "ok".data) || "ok.".data.isPrefixOf rl || "ok\n".data.isPrefixOf rl then
    (.ok, none)
  else if okPhrases.any (fun p => strContains rl p) && !(strContains fw "alert".data) then
    (.ok, none)
  else (.alert, some rs)

/-- Function `_parse_llm_status` from `llm.py`: explicit `status:` markers first, then
the `ok` / all-clear heuristics, defaulting to ALERT with the stripped
response as the message. -/
def parse_llm_status (response : String) : CheckStatus × Option String :=
  let rs := pyStripL response.data
  match statusMarkerScan rs (splitNl rs) with
  | some (st, msg) => (st, msg.map fun l => ⟨l⟩)
  | none =>
    match statusFallback rs with
    | (st, msg) => (st, msg.map fun l => ⟨l⟩)

/-!  ## The parsing contract claimed by the specification (claim C1)

The claimed rule list is transcribed from the spec's words, independently of
the loop structure of `_parse_llm_status`: rule (a) is a per-line verdict
searched with `List.findSome?`, rules (b)-(d) follow.  Two variants of rule
(c)'s guard are given: the guard exactly as the claim states it ("whose first
word is not itself `alert`", i.e. word equality) and the amended guard that
the code implements (the first word does not contain `alert`). -/

/-- Rule (a) of the claimed contract, for one line: an explicit `status:`
marker whose value begins `ok` yields OK with no message; a value beginning
`warning`, `alert`, `critical` or `error` yields ALERT with the full
(stripped) response `rs` as the message; other lines give no verdict. -/
def claimLineVerdict (rs line : List Char) : Option (CheckStatus × Option (List Char)) :=
  let v := pyLowerL (pyStripL line)
  if "status:".data.isPrefixOf v then
    let value := pyStripL (v.drop 7)
    if "ok".data.isPrefixOf value then some (.ok, none)
    else if ["warning", "alert", "critical", "error"].any
        (fun w => w.data.isPrefixOf value) then
      some (.alert, some rs)
    else none
  else none

/-- Rules (b)-(d) of claim C1 exactly as stated: (b) first token exactly `ok`,
or the response begins `ok.` or `ok` followed by a newline, yields OK;
(c) a contained all-clear phrase with a first word that is not *itself* the
word `alert` yields OK; (d) otherwise ALERT with the response as message. -/
def claimFallbackAsStated (rs : List Char) : CheckStatus × Option (List Char) :=
  let rl := pyLowerL rs
  let fw := firstWord rl
  if (fw == "ok".data) || "ok.".data.isPrefixOf rl || "ok\n".data.isPrefixOf rl then
    (.ok, none)
  else if (okPhrases.any fun p => strContains rl p) && !(fw == "alert".data) then
    (.ok, none)
  else (.alert, some rs)

/-- Rules (b)-(d) with rule (c) amended as the counterexample forces: the
guard excludes any first word *containing* `alert`, not only the word
`alert` itself. -/
def claimFallbackAmended (rs : List Char) : CheckStatus × Option (List Char) :=
  let rl := pyLowerL rs
  let fw := firstWord rl
  if (fw == "ok".data) || "ok.".data.isPrefixOf rl || "ok\n".data.isPrefixOf rl then
    (.ok, none)
  else if (okPhrases.any fun p => strContains rl p) && (strContains fw "alert".data == false) then
    (.ok, none)
  else (.alert, some rs)

/-- Claim C1's ordered, first-match-wins rule list, exactly as stated. -/
def claimStatusRules (response : String) : CheckStatus × Option String :=
  let rs := pyStripL response.data
  match (splitNl rs).findSome? (claimLineVerdict rs) with
  | some (st, msg) => (st, msg.map fun l => ⟨l⟩)
  | none =>
    match claimFallbackAsStated rs with
    | (st, msg) => (st, msg.map fun l => ⟨l⟩)

/-- Claim C1's rule list with rule (c)'s guard amended to substring
containment. -/
def claimStatusRulesAmended (response : String) : CheckStatus × Option String :=
  let rs := pyStripL response.data
  match (splitNl rs).findSome? (claimLineVerdict rs) with
  | some (st, msg) => (st, msg.map fun l => ⟨l⟩)
  | none =>
    match claimFallbackAmended rs with
    | (st, msg) => (st, msg.map fun l => ⟨l⟩)

/-- The explicit-marker loop of the source is the first-match line scan of
the claimed rule (a). -/
lemma statusMarkerScan_eq_findSome (rs : List Char) (lines : List (List Char)) :
    statusMarkerScan rs lines = lines.findSome? (claimLineVerdict rs) := by
  induction lines with
  | nil => rfl
  | cons line rest ih =>
    simp only [statusMarkerScan, List.findSome?, claimLineVerdict]
    by_cases hs : "status:".data.isPrefixOf (pyLowerL (pyStripL line)) = true
    · simp only [hs, if_true]
      by_cases h1 : "ok".data.isPrefixOf (pyStripL ((pyLowerL (pyStripL line)).drop 7)) = true
      · simp [h1]
      · by_cases h2 : "warning".data.isPrefixOf (pyStripL ((pyLowerL (pyStripL line)).drop 7)) = true
          <;> by_cases h3 : "alert".data.isPrefixOf (pyStripL ((pyLowerL (pyStripL line)).drop 7)) = true
          <;> by_cases h4 : "critical".data.isPrefixOf (pyStripL ((pyLowerL (pyStripL line)).drop 7)) = true
          <;> by_cases h5 : "error".data.isPrefixOf (pyStripL ((pyLowerL (pyStripL line)).drop 7)) = true
          <;> simp [h1, h2, h3, h4, h5, ih]
    · simp [hs, ih]

/-- The fallback heuristics of the source coincide with rules (b)-(d) of the
amended claim. -/
lemma beqFalseEqNot (b : Bool) : (b == false) = !b := by cases b <;> rfl

lemma statusFallback_eq_claimAmended (rs : List Char) :
    statusFallback rs = claimFallbackAmended rs := by
  simp only [statusFallback, claimFallbackAmended, beqFalseEqNot]

/-- The explicit-marker scan only ever yields OK or ALERT. -/
lemma statusMarkerScan_status (rs : List Char) (lines : List (List Char))
    (st : CheckStatus) (msg : Option (List Char))
    (h : statusMarkerScan rs lines = some (st, msg)) :
    st = CheckStatus.ok ∨ st = CheckStatus.alert := by
  induction lines with
  | nil => simp [statusMarkerScan] at h
  | cons line rest ih =>
    simp only [statusMarkerScan] at h
    repeat' split at h
    any_goals (cases h; simp)
    all_goals exact ih h

/-- The fallback heuristics only ever yield OK or ALERT. -/
lemma statusFallback_status (rs : List Char) :
    (statusFallback rs).1 = CheckStatus.ok ∨ (statusFallback rs).1 = CheckStatus.alert := by
  simp only [statusFallback]
  split
  · simp
  · split <;> simp

/-- C10: the status parser is a total function whose status lies in
{OK, ALERT} — it never returns ERROR; an explicit `status: error` or
`status: critical` line yields ALERT, and the empty response yields ALERT
with the empty stripped response as the message. -/
theorem C10_parser_total_ok_or_alert :
    (∀ response : String,
      (parse_llm_status response).1 = CheckStatus.ok ∨
      (parse_llm_status response).1 = CheckStatus.alert) ∧
    parse_llm_status "status: error" = (CheckStatus.alert, some "status: error") ∧
    parse_llm_status "status: critical" = (CheckStatus.alert, some "status: critical") ∧
    parse_llm_status "" = (CheckStatus.alert, some "") := by
  refine ⟨?_, by decide, by decide, by decide⟩
  intro response
  unfold parse_llm_status
  cases h : statusMarkerScan (pyStripL response.data) (splitNl (pyStripL response.data)) with
  | some r =>
    obtain ⟨st, msg⟩ := r
    simp only [h]
    exact statusMarkerScan_status _ _ _ _ h
  | none =>
    simp only [h]
    cases hf : statusFallback (pyStripL response.data) with
    | mk st msg =>
      have := statusFallback_status (pyStripL response.data)
      rw [hf] at this
      simpa using this

/-- C1 (counterexample): the claimed rule list, read as frozen ("whose first
word is not itself `alert`"), classifies `"alerted: no issues"` as OK, while
the source's parser — whose rule (c) guard rejects any first word containing
`alert` — classifies it as ALERT with the response as the message. -/
theorem C1_counterexample :
    claimStatusRules "alerted: no issues" = (CheckStatus.ok, none) ∧
    parse_llm_status "alerted: no issues" =
      (CheckStatus.alert, some "alerted: no issues") := by
  constructor <;> decide

/-- C1 (amended): single-stage status parsing follows the claimed ordered,
first-match-wins rule list — explicit `status:` markers first, then the `ok`
first-token rule, then the all-clear-phrase rule, then the ALERT default —
with rule (c)'s guard amended from "first word is not itself `alert`" to
"first word does not contain `alert`". -/
theorem C1_status_parsing_rules (response : String) :
    parse_llm_status response = claimStatusRulesAmended response := by
  simp only [parse_llm_status, claimStatusRulesAmended,
    statusMarkerScan_eq_findSome, statusFallback_eq_claimAmended]

/-!  ## Data model (`models.py`)

Timestamps (`datetime`) are modelled as abstract `Nat` ticks and `Path`
fields are dropped; every field a claim touches is kept with its source name
and default. -/

/-- Record `LLMConfig` from `models.py`. -/
structure LLMConfig where
  prompt : String
  model : Option String := none
  timeout : Option Nat := none
  history_context : Option Nat := none
  triage_model : Option String := none
  analysis_model : Option String := none
  skip_analysis : Bool := false

/-- Record `NotifyConfig` from `models.py`. -/
structure NotifyConfig where
  priority : NotifyPriority := .default
  tags : List String := []

/-- Record `Check` from `models.py`. -/
structure Check where
  name : String
  command : String
  schedule : String
  description : String := ""
  enabled : Bool := true
  timeout : Nat := 30
  -- the source field is named `sudo`; that word is a command keyword here
  use_sudo : Bool := false
  llm : LLMConfig := { prompt := "" }
  notify : NotifyConfig := {}

/-- Record `CheckRun` from `models.py`. -/
structure CheckRun where
  check_name : String
  run_at : Nat
  command_output : String
  command_exit_code : Int
  command_duration_ms : Nat
  status : CheckStatus
  llm_model : Option String := none
  llm_response : Option String := none
  llm_duration_ms : Option Nat := none
  alert_sent : Bool := false
  alert_message : Option String := none
deriving DecidableEq

/-- Record `OllamaConfig` from `models.py`. -/
structure OllamaConfig where
  host : String := "http://localhost:11434"
  model : String := "qwen2.5:7b"
  timeout : Nat := 120

/-- Record `DefaultsConfig` from `models.py` (fields the pipeline reads). -/
structure DefaultsConfig where
  alert_on_check_error : Bool := true
  alert_on_llm_error : Bool := true
  retain_days : Nat := 90
  analyze_errors : Bool := true
  error_model : Option String := none
  default_history_context : Nat := 3

/-- Record `Config` from `models.py` (sections the pipeline reads). -/
structure Config where
  ollama : OllamaConfig := {}
  defaults : DefaultsConfig := {}

/-!  ## LLM classification (`llm.py`, `analyze_output` / `_two_stage_analysis`)

A remote `client.generate` call is modelled as an oracle
`gen : Nat → GenOutcome` giving the outcome of the i-th generate call of the
run, with its measured duration in milliseconds.  Prompt construction does
not influence any claim and is absorbed by the oracle.  Alongside the updated
run, the embedding returns the list of model names the run invoked, in call
order, so call counts are observable. -/

/-- Outcome of one `OllamaClient.generate` call: either the generated
response, or an `LLMError` message, each with the call's elapsed time. -/
inductive GenOutcome where
  | ok (response : String) (durationMs : Nat)
  | err (msg : String) (durationMs : Nat)
deriving DecidableEq

/-- The analysis-model resolution of `_two_stage_analysis`:
`check.llm.analysis_model or check.llm.model or default_model`
(Python `or`, so `None` and `""` fall through). -/
def resolvedAnalysisModel (check : Check) (config : Config) : String :=
  pyOrStrD (pyOrStr check.llm.analysis_model check.llm.model) config.ollama.model

/-- Function `_two_stage_analysis` from `llm.py`.  `gen 0` is the triage call and
`gen 1` the analysis call.  The caller guarantees `triage_model` is set. -/
def two_stage_analysis (gen : Nat → GenOutcome) (check : Check) (run : CheckRun)
    (config : Config) : CheckRun × List String :=
  let triage_model := check.llm.triage_model.getD ""
  let analysis_model := resolvedAnalysisModel check config
  match gen 0 with
  | .err e fdur =>
    let base := { run with llm_model := some triage_model,
                           llm_response := some ("LLM Error: " ++ e),
                           llm_duration_ms := some fdur }
    (if config.defaults.alert_on_llm_error then
       { base with status := .error, alert_message := some ("LLM analysis failed: " ++ e) }
     else base, [triage_model])
  | .ok triage_response triage_duration =>
    if (parse_llm_status triage_response).1 = CheckStatus.ok then
      ({ run with llm_model := some triage_model, llm_response := some triage_response,
                  llm_duration_ms := some triage_duration, status := .ok },
       [triage_model])
    else if check.llm.skip_analysis then
      ({ run with llm_model := some triage_model, llm_response := some triage_response,
                  llm_duration_ms := some triage_duration, status := .alert,
                  alert_message := some "Issue detected (detailed analysis skipped)" },
       [triage_model])
    else
      match gen 1 with
      | .ok analysis_response analysis_duration =>
        ({ run with llm_model := some (triage_model ++ "+" ++ analysis_model),
                    llm_response := some analysis_response,
                    llm_duration_ms := some (triage_duration + analysis_duration),
                    status := .alert, alert_message := some analysis_response },
         [triage_model, analysis_model])
      | .err e fdur =>
        let base := { run with llm_model := some triage_model,
                               llm_response := some ("LLM Error: " ++ e),
                               llm_duration_ms := some (triage_duration + fdur) }
        (if config.defaults.alert_on_llm_error then
           { base with status := .error, alert_message := some ("LLM analysis failed: " ++ e) }
         else base, [triage_model, analysis_model])

/-- Function `analyze_output` from `llm.py`: two-stage when a triage model is
configured (Python truthiness), otherwise the single-stage legacy path. -/
def analyze_output (gen : Nat → GenOutcome) (check : Check) (run : CheckRun)
    (config : Config) : CheckRun × List String :=
  if optStrTruthy check.llm.triage_model then
    two_stage_analysis gen check run config
  else
    let model := pyOrStrD check.llm.model config.ollama.model
    match gen 0 with
    | .ok response duration_ms =>
      ({ run with llm_model := some model, llm_response := some response,
                  llm_duration_ms := some duration_ms,
                  status := (parse_llm_status response).1,
                  alert_message := (parse_llm_status response).2 },
       [model])
    | .err e fdur =>
      let base := { run with llm_model := some model,
                             llm_response := some ("LLM Error: " ++ e),
                             llm_duration_ms := some fdur }
      (if config.defaults.alert_on_llm_error then
         { base with status := .error, alert_message := some ("LLM analysis failed: " ++ e) }
       else base, [model])

/-- C3: in two-stage classification, a triage response parsing to OK makes
exactly one remote call and finalizes the run OK; a triage response not
parsing to OK with `skip_analysis = false` makes exactly two calls, finalizes
ALERT with the analysis response as the alert message, sums the two call
durations into `llm_duration_ms`, and joins both model identifiers with `+`
into `llm_model`. -/
theorem C3_two_stage_calls
    (gen : Nat → GenOutcome) (check : Check) (run : CheckRun) (config : Config)
    (tm tresp : String) (tdur : Nat)
    (htm : check.llm.triage_model = some tm) (htm' : tm ≠ "")
    (h0 : gen 0 = GenOutcome.ok tresp tdur) :
    ((parse_llm_status tresp).1 = CheckStatus.ok →
      analyze_output gen check run config =
        ({ run with llm_model := some tm, llm_response := some tresp,
                    llm_duration_ms := some tdur, status := .ok }, [tm])) ∧
    (∀ aresp adur, (parse_llm_status tresp).1 ≠ CheckStatus.ok →
      check.llm.skip_analysis = false → gen 1 = GenOutcome.ok aresp adur →
      analyze_output gen check run config =
        ({ run with
             llm_model := some (tm ++ "+" ++ resolvedAnalysisModel check config),
             llm_response := some aresp,
             llm_duration_ms := some (tdur + adur),
             status := .alert,
             alert_message := some aresp },
         [tm, resolvedAnalysisModel check config])) := by
  have htr : optStrTruthy (some tm) = true := by simp [optStrTruthy, htm']
  constructor
  · intro hok
    simp [analyze_output, htm, htr, two_stage_analysis, h0, hok]
  · intro aresp adur hnok hskip h1
    simp [analyze_output, htm, htr, two_stage_analysis, h0, h1, hnok, hskip]

/-- Fixture: triage call answers `OK` in 5 ms. -/
def genTriageOkW : Nat → GenOutcome := fun _ => GenOutcome.ok "OK" 5

/-- Fixture: a check configured for two-stage analysis. -/
def checkTriageW : Check :=
  { name := "disk", command := "df -h", schedule := "* * * * *",
    llm := { prompt := "check", triage_model := some "fast", analysis_model := some "big" } }

/-- Fixture: a run as produced by the command stage. -/
def runW : CheckRun :=
  { check_name := "disk", run_at := 0, command_output := "out",
    command_exit_code := 0, command_duration_ms := 3, status := .ok }

theorem C3_two_stage_calls_witness :
    analyze_output genTriageOkW checkTriageW runW {} =
      ({ runW with llm_model := some "fast", llm_response := some "OK",
                   llm_duration_ms := some 5, status := .ok }, ["fast"]) := by
  have h := C3_two_stage_calls genTriageOkW checkTriageW runW {} "fast" "OK" 5
    rfl (by decide) rfl
  exact h.1 (by decide)

/-- What happens to a run after a failed remote call, per claim C7: the
synthesized `llm_response`, and the `alert_on_llm_error`-gated escalation. -/
def errPolicyHolds (r run : CheckRun) (config : Config) (e : String) : Prop :=
  r.llm_response = some ("LLM Error: " ++ e) ∧
  (config.defaults.alert_on_llm_error = false →
    r.status = run.status ∧ r.alert_message = run.alert_message) ∧
  (config.defaults.alert_on_llm_error = true →
    r.status = CheckStatus.error ∧ r.alert_message = some ("LLM analysis failed: " ++ e))

/-- C7: when a generate call fails (single-stage, two-stage triage call, or
two-stage analysis call), the run records the synthesized error string in
`llm_response`; with `alert_on_llm_error = false` the status and alert
message are left unchanged, and with the flag true the status becomes ERROR
with a synthesized alert message.  Classification is a total function, so it
never raises to the caller. -/
theorem C7_llm_error_policy
    (gen : Nat → GenOutcome) (check : Check) (run : CheckRun) (config : Config)
    (e : String) (d : Nat) :
    (optStrTruthy check.llm.triage_model = false → gen 0 = GenOutcome.err e d →
      errPolicyHolds (analyze_output gen check run config).1 run config e) ∧
    (optStrTruthy check.llm.triage_model = true → gen 0 = GenOutcome.err e d →
      errPolicyHolds (analyze_output gen check run config).1 run config e) ∧
    (∀ tresp tdur, optStrTruthy check.llm.triage_model = true →
      gen 0 = GenOutcome.ok tresp tdur → (parse_llm_status tresp).1 ≠ CheckStatus.ok →
      check.llm.skip_analysis = false → gen 1 = GenOutcome.err e d →
      errPolicyHolds (analyze_output gen check run config).1 run config e) := by
  refine ⟨?_, ?_, ?_⟩
  · intro htr h0
    cases hflag : config.defaults.alert_on_llm_error <;>
      simp [analyze_output, htr, h0, errPolicyHolds, hflag]
  · intro htr h0
    cases hflag : config.defaults.alert_on_llm_error <;>
      simp [analyze_output, htr, two_stage_analysis, h0, errPolicyHolds, hflag]
  · intro tresp tdur htr h0 hnok hskip h1
    cases hflag : config.defaults.alert_on_llm_error <;>
      simp [analyze_output, htr, two_stage_analysis, h0, h1, hnok, hskip,
        errPolicyHolds, hflag]

/-- Fixture: every generate call fails with a connection error after 7 ms. -/
def genErrW : Nat → GenOutcome := fun _ => GenOutcome.err "connection refused" 7

/-- Fixture: a single-stage check (no triage model). -/
def checkSingleW : Check := { name := "c", command := "true", schedule := "* * * * *" }

/-- Fixture: configuration with `alert_on_llm_error = false`. -/
def cfgNoAlertW : Config := { defaults := { alert_on_llm_error := false } }

theorem C7_llm_error_policy_witness :
    (analyze_output genErrW checkSingleW runW cfgNoAlertW).1.llm_response =
      some ("LLM Error: " ++ "connection refused") ∧
    (analyze_output genErrW checkSingleW runW cfgNoAlertW).1.status = runW.status ∧
    (analyze_output genErrW checkSingleW runW cfgNoAlertW).1.alert_message =
      runW.alert_message := by
  have h := (C7_llm_error_policy genErrW checkSingleW runW cfgNoAlertW
    "connection refused" 7).1 (by decide) rfl
  exact ⟨h.1, (h.2.1 rfl).1, (h.2.1 rfl).2⟩

/-!  ## Retry (`retry.py`) and HTTP error classification (`llm.py`, `notify.py`)

`retry_on_error` is instrumented to report how many times it called the
wrapped function and how many backoff sleeps it performed; the wrapped
function is an oracle from the attempt index to the attempt's outcome. -/

/-- The exception values raised by the embedded remote calls.  `LLMError`
and `NotifyError` are the domain exception classes; `RuntimeError` is
Python's, reachable only with `max_attempts = 0`. -/
inductive PyError where
  | llmError (msg : String)
  | notifyError (msg : String)
  | runtimeError (msg : String)
deriving DecidableEq

/-- Test `isinstance(e, LLMError)`: the membership test performed by
`except (LLMError,)` inside `retry_on_error`. -/
def isLLMError : PyError → Bool
  | .llmError _ => true
  | _ => false

/-- Test `isinstance(e, NotifyError)`. -/
def isNotifyError : PyError → Bool
  | .notifyError _ => true
  | _ => false

deriving instance DecidableEq for Except

/-- Trace of one `retry_on_error` invocation: its outcome, how many times it
called the wrapped function, and how many backoff sleeps it performed. -/
structure RetryTrace (α : Type) where
  result : Except PyError α
  attempts : Nat
  sleeps : Nat
deriving DecidableEq

/-- The loop of `retry_on_error`: first argument the zero-based index of the
current attempt, second the attempts remaining.  `isCaught e` models
membership of the raised exception in the `exceptions` tuple; an uncaught
exception propagates immediately.  A sleep happens before each retry, so on
exit at attempt `i` exactly `i` sleeps have occurred.  The fuel-0 case is
Python's trailing `RuntimeError`, reachable only when `max_attempts = 0`. -/
def retryLoop (f : Nat → Except PyError α) (isCaught : PyError → Bool) :
    Nat → Nat → RetryTrace α
  | i, 0 => ⟨.error (.runtimeError "Retry loop exited without result or exception"), i, i⟩
  | i, r + 1 =>
    match f i with
    | .ok a => ⟨.ok a, i + 1, i⟩
    | .error e =>
      if isCaught e then
        if r = 0 then ⟨.error e, i + 1, i⟩
        else retryLoop f isCaught (i + 1) r
      else ⟨.error e, i + 1, i⟩

/-- Function `retry_on_error` from `retry.py` (the delays — `delay` doubling via
`backoff` — only matter to the claims through the sleep count). -/
def retry_on_error (f : Nat → Except PyError α) (max_attempts : Nat)
    (isCaught : PyError → Bool) : RetryTrace α :=
  retryLoop f isCaught 0 max_attempts

/-- Outcome of one HTTP request as seen by the `try` blocks of
`OllamaClient.generate` and `NtfyClient.send`.  `httpStatus code` is a
response for which `raise_for_status` raises (`code ≥ 400`). -/
inductive ReqOutcome where
  | success (body : String)
  | httpStatus (code : Nat)
  | timeout
  | connError (msg : String)
deriving DecidableEq

/-- The `_do_request` body of `OllamaClient.generate`: the response text is
stripped on success, and every failure is re-raised as an `LLMError` —
timeouts, 4xx client errors, 5xx server errors and connection errors alike
(the 4xx branch differs only in its message). -/
def generateRequest (effectiveTimeout : Nat) (o : ReqOutcome) : Except PyError String :=
  match o with
  | .success body => .ok (pyStrip body)
  | .timeout =>
    .error (.llmError ("LLM request timed out after " ++ Nat.repr effectiveTimeout ++ "s"))
  | .httpStatus code =>
    if 400 ≤ code ∧ code < 500 then
      .error (.llmError ("LLM request failed: " ++ Nat.repr code))
    else .error (.llmError ("LLM server error: " ++ Nat.repr code))
  | .connError m => .error (.llmError ("LLM connection error: " ++ m))

/-- Method `OllamaClient.generate`: the request body wrapped in
`retry_on_error(..., exceptions=(LLMError,))`; `outcomes i` is the HTTP
outcome of the i-th attempt. -/
def generate (outcomes : Nat → ReqOutcome) (effectiveTimeout max_retries : Nat) :
    RetryTrace String :=
  retry_on_error (fun i => generateRequest effectiveTimeout (outcomes i)) max_retries isLLMError

/-- The `_do_send` body of `NtfyClient.send`: every failure is re-raised as a
`NotifyError` (4xx and 5xx alike; timeouts surface through the
`httpx.RequestError` branch as connection errors). -/
def sendRequest (o : ReqOutcome) : Except PyError Bool :=
  match o with
  | .success _ => .ok true
  | .timeout => .error (.notifyError ("ntfy connection error: " ++ "timed out"))
  | .httpStatus code =>
    if 400 ≤ code ∧ code < 500 then
      .error (.notifyError ("ntfy request failed: " ++ Nat.repr code))
    else .error (.notifyError ("ntfy server error: " ++ Nat.repr code))
  | .connError m => .error (.notifyError ("ntfy connection error: " ++ m))

/-- Method `NtfyClient.send`: the request body wrapped in
`retry_on_error(..., exceptions=(NotifyError,))`. -/
def ntfySend (outcomes : Nat → ReqOutcome) (max_retries : Nat) : RetryTrace Bool :=
  retry_on_error (fun i => sendRequest (outcomes i)) max_retries isNotifyError

/-- C2 (code bug): a 4xx client error is NOT propagated immediately.  Both
`OllamaClient.generate` and `NtfyClient.send` convert a 4xx
`HTTPStatusError` into their own exception class (`LLMError` /
`NotifyError`), which is exactly the class `retry_on_error` is told to catch,
so a permanent HTTP 404 is attempted `max_retries = 3` times with two
backoff sleeps in between — despite the source's own
`# Don't retry client errors (4xx)` comments. -/
theorem C2_client_error_retried :
    (generate (fun _ => ReqOutcome.httpStatus 404) 600 3).attempts = 3 ∧
    (generate (fun _ => ReqOutcome.httpStatus 404) 600 3).sleeps = 2 ∧
    (generate (fun _ => ReqOutcome.httpStatus 404) 600 3).result =
      Except.error (PyError.llmError "LLM request failed: 404") ∧
    (ntfySend (fun _ => ReqOutcome.httpStatus 404) 3).attempts = 3 ∧
    (ntfySend (fun _ => ReqOutcome.httpStatus 404) 3).sleeps = 2 ∧
    (ntfySend (fun _ => ReqOutcome.httpStatus 404) 3).result =
      Except.error (PyError.notifyError "ntfy request failed: 404") := by
  refine ⟨by decide, by decide, by decide, by decide, by decide, by decide⟩

/-!  ## Scheduler (`scheduler.py`, `is_check_due`)

`croniter` is an external library, modelled by two oracles: `cronParse`
validates and parses a cron expression (`none` exactly when `croniter`
raises), and `cronNextAfter` is `croniter(sched, base).get_next(datetime)`:
the first scheduled instant strictly after `base`.  Times are `Nat` ticks;
`datetime.now()` is the explicit argument `now`. -/

/-- Function `is_check_due` from `scheduler.py`: disabled checks are never due;
otherwise the schedule is parsed (also when the check never ran), and the
check is due iff it never ran or `now` has reached the next instant strictly
after `last_run`.  A parse failure is re-raised as `ValueError`. -/
def is_check_due {σ : Type} (cronParse : String → Option σ)
    (cronNextAfter : σ → Nat → Nat) (now : Nat)
    (check : Check) (last_run : Option Nat) : Except String Bool :=
  if check.enabled = false then .ok false
  else
    match cronParse check.schedule with
    | none => .error ("Invalid cron schedule '" ++ check.schedule ++ "'")
    | some cron =>
      match last_run with
      | none => .ok true
      | some t => .ok (decide (cronNextAfter cron t ≤ now))

/-- C4: for an enabled check, an absent `lastRunAt` yields `true` for every
schedule the cron parser accepts and an invalid-schedule error for a
malformed one (the schedule is validated even when the check never ran); a
present `lastRunAt = t` yields `true` exactly when `now` has reached the
first cron instant strictly after `t`. -/
theorem C4_is_due {σ : Type} (cronParse : String → Option σ)
    (cronNextAfter : σ → Nat → Nat) (now : Nat) (check : Check)
    (hEn : check.enabled = true) :
    (∀ last_run, cronParse check.schedule = none →
      is_check_due cronParse cronNextAfter now check last_run =
        .error ("Invalid cron schedule '" ++ check.schedule ++ "'")) ∧
    (∀ cron, cronParse check.schedule = some cron →
      is_check_due cronParse cronNextAfter now check none = .ok true ∧
      ∀ t, (is_check_due cronParse cronNextAfter now check (some t) = .ok true ↔
        cronNextAfter cron t ≤ now)) := by
  constructor
  · intro last_run hp
    simp [is_check_due, hEn, hp]
  · intro cron hp
    refine ⟨by simp [is_check_due, hEn, hp], fun t => ?_⟩
    simp [is_check_due, hEn, hp]

/-- Fixture: a cron parser accepting only `* * * * *`. -/
def cronParseW : String → Option Unit :=
  fun s => if s = "* * * * *" then some () else none

/-- Fixture: the every-minute schedule fires one tick after its base. -/
def cronNextW : Unit → Nat → Nat := fun _ t => t + 1

/-- Fixture: an enabled every-minute check. -/
def checkCronW : Check := { name := "m", command := "uptime", schedule := "* * * * *" }

theorem C4_is_due_witness :
    is_check_due cronParseW cronNextW 100 checkCronW none = .ok true ∧
    (is_check_due cronParseW cronNextW 100 checkCronW (some 50) = .ok true ↔
      cronNextW () 50 ≤ 100) := by
  have h := (C4_is_due cronParseW cronNextW 100 checkCronW rfl).2 () (by decide)
  exact ⟨h.1, h.2 50⟩

/-- C9: a disabled check is never due: `is_check_due` returns `false`
immediately, regardless of `lastRunAt` and without consulting the schedule
parser, so even an unparseable schedule yields `false` rather than an
invalid-schedule error. -/
theorem C9_disabled_never_due {σ : Type} (cronParse : String → Option σ)
    (cronNextAfter : σ → Nat → Nat) (now : Nat) (check : Check)
    (hEn : check.enabled = false) (last_run : Option Nat) :
    is_check_due cronParse cronNextAfter now check last_run = .ok false := by
  simp [is_check_due, hEn]

/-- Fixture: a disabled check with a malformed schedule. -/
def checkDisabledW : Check :=
  { name := "d", command := "true", schedule := "not a schedule", enabled := false }

theorem C9_disabled_never_due_witness :
    is_check_due (fun _ : String => (none : Option Unit)) (fun _ t => t) 0
      checkDisabledW (some 3) = .ok false :=
  C9_disabled_never_due (fun _ => none) (fun _ t => t) 0 checkDisabledW rfl (some 3)

/-!  ## Runner (`runner.py`) -/

/-- The truncation marker `truncate_output` inserts for `omitted` omitted
characters. -/
def truncMarker (omitted : Nat) : String :=
  "\n\n[... truncated " ++ Nat.repr omitted ++ " characters ...]\n\n"

/-- Python `output[-keep:]`: `-0` is `0`, so `keep = 0` yields the whole
string; otherwise the last `keep` characters (all of them if `keep` exceeds
the length). -/
def pyTakeLast (l : List Char) (keep : Nat) : List Char :=
  if keep = 0 then l else l.drop (l.length - keep)

/-- Function `truncate_output` from `runner.py`: keep the input when it fits,
otherwise first `max_chars // 2` characters, marker, last `max_chars // 2`
characters (via Python's negative slice). -/
def truncate_output (output : String) (max_chars : Nat) : String :=
  if output.length ≤ max_chars then output
  else
    ⟨output.data.take (max_chars / 2) ++ (truncMarker (output.length - max_chars)).data
      ++ pyTakeLast output.data (max_chars / 2)⟩

/-- C5 (counterexample): with `maxChars = 0` the kept half is
`keep = 0 // 2 = 0`, and Python's `output[-0:]` is the whole string, so
`truncate_output "ab" 0` carries the entire input after the marker instead
of its "last 0 characters", and its length exceeds the claimed bound
`maxChars + marker length`. -/
theorem C5_counterexample :
    truncate_output "ab" 0 = truncMarker 2 ++ "ab" ∧
    ¬ ((truncate_output "ab" 0).length ≤ 0 + (truncMarker 2).length) := by
  constructor <;> decide

/-- C5 (amended): `truncate_output` is the identity on every input that
fits; for a longer input and `maxChars ≥ 2` (so the kept half is nonempty
and the negative slice means "last half"), the result is the first
`maxChars / 2` characters, the marker naming the omitted count
`length - maxChars`, and the last `maxChars / 2` characters, and its length
is at most `maxChars` plus the marker's length. -/
theorem C5_truncate (s : String) (m : Nat) :
    (s.length ≤ m → truncate_output s m = s) ∧
    (m < s.length → 2 ≤ m →
      truncate_output s m =
        (⟨s.data.take (m / 2)⟩ : String) ++ truncMarker (s.length - m) ++
          ⟨s.data.drop (s.data.length - m / 2)⟩ ∧
      (truncate_output s m).length ≤ m + (truncMarker (s.length - m)).length) := by
  constructor
  · intro h
    simp [truncate_output, h]
  · intro hlong hm
    have hkeep : m / 2 ≠ 0 := by omega
    have hNotLe : ¬ (s.length ≤ m) := by omega
    have hdef : truncate_output s m =
        ⟨s.data.take (m / 2) ++ (truncMarker (s.length - m)).data
          ++ s.data.drop (s.data.length - m / 2)⟩ := by
      simp [truncate_output, hNotLe, pyTakeLast, hkeep]
    have hlen : s.data.length = s.length := rfl
    constructor
    · rw [hdef]
      rfl
    · rw [hdef]
      show (s.data.take (m / 2) ++ (truncMarker (s.length - m)).data
          ++ s.data.drop (s.data.length - m / 2)).length ≤
        m + (truncMarker (s.length - m)).data.length
      simp only [List.length_append, List.length_take, List.length_drop]
      omega

/-- Fixture input for the truncation witness. -/
def longOutputW : String := "0123456789"

theorem C5_truncate_witness :
    truncate_output longOutputW 4 =
      (⟨longOutputW.data.take 2⟩ : String) ++ truncMarker 6 ++
        ⟨longOutputW.data.drop 8⟩ ∧
    (truncate_output longOutputW 4).length ≤ 4 + (truncMarker 6).length := by
  have h := (C5_truncate longOutputW 4).2 (by decide) (by decide)
  exact h

/-!  ## Runner command execution (`runner.py`, `run_command`)

The subprocess itself is an oracle: one `ProcOutcome` describes what
`subprocess.run` did, and the measured wall-clock duration is its
`durationMs` argument. -/

/-- One subprocess execution outcome, as seen by `run_command`'s `try`
block: normal completion with any exit code, `TimeoutExpired` carrying the
partial streams (`str | None`), or any other exception while launching. -/
inductive ProcOutcome where
  | completed (stdout stderr : String) (returncode : Int)
  | timedOut (stdout stderr : Option String)
  | launchFailure (msg : String)

/-- stdout/stderr combination on normal completion: stderr, when non-empty,
follows a `--- stderr ---` separator (the separator only when stdout is also
non-empty). -/
def combineOutErr (out err : String) : String :=
  if err != "" then
    (if out != "" then out ++ "\n--- stderr ---\n" ++ err else out ++ err)
  else out

/-- The same combination on timeout, where both streams are `str | None`
and tested for Python truthiness. -/
def combineTimeoutStreams (stdout stderr : Option String) : String :=
  let o := if optStrTruthy stdout then stdout.getD "" else ""
  if optStrTruthy stderr then
    (if o != "" then o ++ "\n--- stderr ---\n" else o) ++ stderr.getD ""
  else o

/-- The literal timeout marker `run_command` appends (without its leading
newline). -/
def timeoutMarker (timeout : Nat) : String :=
  "[Command timed out after " ++ Nat.repr timeout ++ "s]"

/-- Function `run_command` from `runner.py`: completion and timeout return a stripped
output tuple (exit code `-1` on timeout); only a launch failure raises
(`RunnerError`). -/
def run_command (proc : ProcOutcome) (timeout durationMs : Nat) :
    Except String (String × Int × Nat) :=
  match proc with
  | .completed out err rc => .ok (pyStrip (combineOutErr out err), rc, durationMs)
  | .timedOut so se =>
    .ok (pyStrip (combineTimeoutStreams so se ++ "\n" ++ timeoutMarker timeout),
      -1, durationMs)
  | .launchFailure msg => .error ("Command execution failed: " ++ msg)

/-- A nonempty block whose head is not dropped survives `dropWhile` of
whatever precedes it. -/
lemma suffix_dropWhile_append (p : Char → Bool) (x m' : List Char) (c : Char)
    (hc : p c = false) : (c :: m') <:+ List.dropWhile p (x ++ c :: m') := by
  induction x with
  | nil =>
    rw [List.nil_append, List.dropWhile_cons, hc]
    simp
  | cons a y ih =>
    rw [List.cons_append, List.dropWhile_cons]
    by_cases ha : p a = true
    · simpa [ha] using ih
    · rw [if_neg (by simp [ha])]
      rw [show a :: (y ++ c :: m') = (a :: y) ++ (c :: m') from rfl]
      exact List.suffix_append (a :: y) (c :: m')

/-- Trailing-whitespace strip is the identity on a list ending in a
non-whitespace character. -/
lemma stripTrailing_last_nonws (l : List Char) (c : Char) (hc : pyWS c = false) :
    stripTrailing (l ++ [c]) = l ++ [c] := by
  unfold stripTrailing
  rw [List.reverse_append]
  simp only [List.reverse_cons, List.reverse_nil, List.nil_append, List.singleton_append]
  rw [List.dropWhile_cons, hc]
  simp

/-- A block with non-whitespace first and last characters survives
`pyStripL` of anything prepended to it, as a suffix. -/
lemma marker_suffix_pyStripL (x m : List Char)
    (c : Char) (mid : List Char) (d : Char)
    (hm : m = c :: mid ++ [d]) (hc : pyWS c = false) (hd : pyWS d = false) :
    m <:+ pyStripL (x ++ m) := by
  unfold pyStripL stripLeading
  have h1 : m <:+ List.dropWhile pyWS (x ++ m) := by
    rw [hm]
    exact suffix_dropWhile_append pyWS x (mid ++ [d]) c hc
  obtain ⟨z, hz⟩ := h1
  rw [← hz]
  have hz' : z ++ m = (z ++ (c :: mid)) ++ [d] := by
    rw [hm]; simp
  rw [hz', stripTrailing_last_nonws _ d hd, ← hz']
  exact List.suffix_append z m

/-- The timeout marker decomposed as `'[' :: mid ++ [']']`. -/
lemma timeoutMarker_decomp (t : Nat) :
    (timeoutMarker t).data =
      '[' :: ("Command timed out after ".data ++ (Nat.repr t).data ++ ['s']) ++ [']'] := by
  show ("[Command timed out after " ++ Nat.repr t ++ "s]").data = _
  rw [String.data_append, String.data_append]
  rw [show ("[Command timed out after ").data =
    '[' :: ("Command timed out after ").data from rfl]
  rw [show ("s]").data = ['s'] ++ [']'] from rfl]
  simp

/-- C6: `run_command` returns normally for every launched command, whatever
its exit code; on timeout it returns exit code `-1`, the stripped partial
output with the literal `[Command timed out after Ns]` marker as a suffix,
and the measured duration; it raises exactly when the command could not be
launched. -/
theorem C6_run_command :
    (∀ out err rc (t d : Nat),
      run_command (ProcOutcome.completed out err rc) t d =
        .ok (pyStrip (combineOutErr out err), rc, d)) ∧
    (∀ so se (t d : Nat),
      run_command (ProcOutcome.timedOut so se) t d =
        .ok (pyStrip (combineTimeoutStreams so se ++ "\n" ++ timeoutMarker t), -1, d) ∧
      (timeoutMarker t).data <:+
        (pyStrip (combineTimeoutStreams so se ++ "\n" ++ timeoutMarker t)).data) ∧
    (∀ msg (t d : Nat),
      run_command (ProcOutcome.launchFailure msg) t d =
        .error ("Command execution failed: " ++ msg)) := by
  refine ⟨fun _ _ _ _ _ => rfl, fun so se t d => ⟨rfl, ?_⟩, fun _ _ _ => rfl⟩
  show (timeoutMarker t).data <:+
    pyStripL ((combineTimeoutStreams so se ++ "\n" ++ timeoutMarker t).data)
  rw [String.data_append]
  exact marker_suffix_pyStripL _ _ '['
    ("Command timed out after ".data ++ (Nat.repr t).data ++ ['s']) ']'
    (timeoutMarker_decomp t) rfl rfl

/-!  ## Notifier (`notify.py`, `send_alert`)

`NtfyClient.send` (its retries included) is an oracle from the constructed
request to either a boolean or a raised `NotifyError`. -/

/-- The arguments `send_alert` passes to `NtfyClient.send`. -/
structure NtfySendArgs where
  message : String
  title : Option String
  priority : NotifyPriority
  tags : Option (List String)
deriving DecidableEq

/-- The request `send_alert` constructs for a run: title from the check
name; body `run.alert_message or run.llm_response or "Alert triggered"`
(Python `or`, so `None` and `""` both fall through); a severity tag
(`warning` for ALERT, `x` for ERROR) inserted at the front of the caller's
tags; the tag list passed as `None` when it ends up empty. -/
def sendAlertArgs (run : CheckRun) (tags : Option (List String))
    (priority : NotifyPriority) : NtfySendArgs :=
  let message :=
    if optStrTruthy run.alert_message then run.alert_message.getD ""
    else if optStrTruthy run.llm_response then run.llm_response.getD ""
    else "Alert triggered"
  let base_tags := tags.getD []
  let all_tags :=
    if run.status = CheckStatus.alert then "warning" :: base_tags
    else if run.status = CheckStatus.error then "x" :: base_tags
    else base_tags
  { message, title := some ("Ampelmann: " ++ run.check_name), priority,
    tags := if all_tags.isEmpty then none else some all_tags }

/-- Function `send_alert` from `notify.py`: dispatch the constructed request; a
`NotifyError` raised by the client after its retries is swallowed and
reported as `false` (`client.send` raises nothing else). -/
def send_alert (sendFn : NtfySendArgs → Except PyError Bool) (run : CheckRun)
    (tags : Option (List String)) (priority : NotifyPriority) : Bool :=
  match sendFn (sendAlertArgs run tags priority) with
  | .ok b => b
  | .error _ => false

/-- The body fallback chain exactly as claim C8 states it: `alert_message`,
falling back (on absence only) to `llm_response`, then to the generic
string. -/
def claimNotifyBody (run : CheckRun) : String :=
  run.alert_message.getD (run.llm_response.getD "Alert triggered")

/-- Fixture: a run whose `alert_message` is present but empty. -/
def runEmptyMsgW : CheckRun :=
  { check_name := "c", run_at := 0, command_output := "", command_exit_code := 0,
    command_duration_ms := 0, status := .alert,
    llm_response := some "llm says so", alert_message := some "" }

/-- C8 (counterexample): for a run with `alert_message` present but empty,
the claimed fallback chain would make the body that empty string, while the
source's Python `or` chain treats `""` as falsy and falls through to
`llm_response`. -/
theorem C8_counterexample :
    claimNotifyBody runEmptyMsgW = "" ∧
    (sendAlertArgs runEmptyMsgW none NotifyPriority.default).message = "llm says so" ∧
    ("" : String) ≠ "llm says so" := by
  refine ⟨rfl, rfl, by decide⟩

/-- C8 (amended): `send_alert` never raises and returns `false` when
delivery fails after retries; the body is `alert_message`, falling back to
`llm_response` when `alert_message` is absent *or empty*, and to
`"Alert triggered"` when both are; a severity tag (`warning` for ALERT, the
error marker `x` for ERROR) is prepended to the caller-supplied tags before
dispatch. -/
theorem C8_send_alert (sendFn : NtfySendArgs → Except PyError Bool)
    (run : CheckRun) (tags : Option (List String)) (priority : NotifyPriority)
    (e : PyError) (hfail : sendFn (sendAlertArgs run tags priority) = .error e) :
    send_alert sendFn run tags priority = false ∧
    (optStrTruthy run.alert_message = true →
      (sendAlertArgs run tags priority).message = run.alert_message.getD "") ∧
    (optStrTruthy run.alert_message = false → optStrTruthy run.llm_response = true →
      (sendAlertArgs run tags priority).message = run.llm_response.getD "") ∧
    (optStrTruthy run.alert_message = false → optStrTruthy run.llm_response = false →
      (sendAlertArgs run tags priority).message = "Alert triggered") ∧
    (run.status = CheckStatus.alert →
      (sendAlertArgs run tags priority).tags = some ("warning" :: tags.getD [])) ∧
    (run.status = CheckStatus.error →
      (sendAlertArgs run tags priority).tags = some ("x" :: tags.getD [])) := by
  refine ⟨?_, ?_, ?_, ?_, ?_, ?_⟩
  · simp [send_alert, hfail]
  · intro h1; simp [sendAlertArgs, h1]
  · intro h1 h2; simp [sendAlertArgs, h1, h2]
  · intro h1 h2; simp [sendAlertArgs, h1, h2]
  · intro hs; simp [sendAlertArgs, hs]
  · intro hs; simp [sendAlertArgs, hs]

/-- Fixture: delivery always fails (after the client's retries). -/
def sendFailW : NtfySendArgs → Except PyError Bool :=
  fun _ => .error (.notifyError "ntfy server error: 500")

/-- Fixture: an alerting run with no alert or LLM message at all. -/
def runAlertNoMsgW : CheckRun :=
  { check_name := "a", run_at := 0, command_output := "", command_exit_code := 0,
    command_duration_ms := 0, status := .alert }

theorem C8_send_alert_witness :
    send_alert sendFailW runAlertNoMsgW (some ["disk"]) NotifyPriority.high = false ∧
    (sendAlertArgs runAlertNoMsgW (some ["disk"]) NotifyPriority.high).message =
      "Alert triggered" ∧
    (sendAlertArgs runAlertNoMsgW (some ["disk"]) NotifyPriority.high).tags =
      some ["warning", "disk"] := by
  have h := C8_send_alert sendFailW runAlertNoMsgW (some ["disk"]) NotifyPriority.high
    (.notifyError "ntfy server error: 500") rfl
  exact ⟨h.1, h.2.2.2.1 rfl rfl, h.2.2.2.2.1 rfl⟩

end Ampelmann
